import Mathlib

/-!
Verification of the spec of the ci-test HTTP service against its source
(src/index.js). The service resolves an environment-named configuration
record at startup (falling back to a built-in default), and exposes four
GET endpoints plus a 404 catch-all and a central error middleware.

JavaScript values relevant to the handlers (booleans, numbers, strings,
nested objects, null/undefined) are embedded as the inductive JsVal;
JavaScript truthiness and the logical-or defaulting idiom (a || b) are
embedded as truthy and jsOr. Objects are association lists; property
access on a missing key or on a non-object yields JsVal.null (standing
for undefined, which behaves the same in every construct the source
uses: truthiness and the || and ?. operators).
-/

namespace CiTest

/-- An embedded JavaScript value. null also stands for undefined:
the source only ever sends such values through truthiness tests,
the || operator and ?. access, where the two behave identically. -/
inductive JsVal : Type where
  | null : JsVal
  | bool : Bool → JsVal
  | num : Int → JsVal
  | str : String → JsVal
  | obj : List (String × JsVal) → JsVal
deriving Repr

/-- JavaScript truthiness: null/undefined, false, 0 and the empty
string are falsy; every object is truthy. -/
def truthy : JsVal → Bool
  | .null => false
  | .bool b => b
  | .num n => n != 0
  | .str s => s != ""
  | .obj _ => true

/-- The JavaScript expression a || b: a when a is truthy, else b. -/
def jsOr (a b : JsVal) : JsVal :=
  if truthy a then a else b

/-- Property access v.k (and v?.k, which agrees with it here because
missing access already yields null): the first binding of k when v is
an object holding one, otherwise null/undefined. -/
def getField : JsVal → String → JsVal
  | .obj fields, k =>
      match fields.lookup k with
      | some v => v
      | none => .null
  | _, _ => .null

/-- Property lookup distinguishing absence: some v when the key is
bound in an object, none otherwise. -/
def lookupField : JsVal → String → Option JsVal
  | .obj fields, k => fields.lookup k
  | _, _ => none

/-- The process environment variables the source reads (lines 7-9 and
38 of src/index.js); none models an unset variable. -/
structure Env : Type where
  PORT : Option String
  NODE_ENV : Option String
  LOG_LEVEL : Option String
  npm_package_version : Option String

/-- The idiom (process.env.X || default) for string-valued variables:
an unset variable is undefined (falsy) and the empty string is falsy,
so both fall back to the default. -/
def envOr (v : Option String) (d : String) : String :=
  match v with
  | some s => if s = "" then d else s
  | none => d

/-- PORT resolution (line 7): process.env.PORT || 3000. The resolved
value is the variable's string when set and nonempty, else the number
3000; it is used verbatim in response bodies. -/
def resolvePORT (v : Option String) : JsVal :=
  match v with
  | some s => if s = "" then .num 3000 else .str s
  | none => .num 3000

/-- The built-in default configuration record (lines 17-21): app name
ci-test with the resolved port, an empty features map, and logging
level info. -/
def defaultConfig (port : JsVal) : JsVal :=
  .obj [("app", .obj [("name", .str "ci-test"), ("port", port)]),
        ("features", .obj []),
        ("logging", .obj [("level", .str "info")])]

/-- Result of the config loader: the record in use and whether the
non-fatal warning was printed. -/
structure LoadResult : Type where
  config : JsVal
  warned : Bool
deriving Repr

/-- The config loader (lines 12-22). files models the require of
config/environments/NODE_ENV.json: some record when the file exists
and parses, none when it is missing or malformed (require throws in
both cases and the catch branch runs). -/
def loadConfig (nodeEnv : String) (files : String → Option JsVal)
    (port : JsVal) : LoadResult :=
  match files nodeEnv with
  | some c => { config := c, warned := false }
  | none => { config := defaultConfig port, warned := true }

/-- The process-wide state established at startup, read by every
handler and never written afterwards. -/
structure ServerState : Type where
  config : JsVal
  nodeEnv : String
  logLevel : String
  port : JsVal
  version : String
  startTime : Nat

/-- Startup (lines 7-22 and 38): resolve the environment variables,
run the config loader once, and record the process start time (in
seconds on some clock) from which uptime is measured. -/
def startServer (env : Env) (files : String → Option JsVal)
    (startTime : Nat) : ServerState :=
  let port := resolvePORT env.PORT
  let nodeEnv := envOr env.NODE_ENV "development"
  { config := (loadConfig nodeEnv files port).config
    nodeEnv := nodeEnv
    logLevel := envOr env.LOG_LEVEL "info"
    port := port
    version := envOr env.npm_package_version "1.0.0"
    startTime := startTime }

/-- An HTTP response: the status code and the JSON body. -/
structure Response : Type where
  status : Nat
  body : JsVal
deriving Repr

/-- process.uptime(): seconds elapsed since process start, measured
at the current clock reading now. -/
def processUptime (startTime now : Nat) : Nat :=
  now - startTime

/-- GET /health (lines 33-45): always 200 with status healthy, the
request-time timestamp, the environment, version, current uptime, and
a config sub-object echoing the resolved log level and port. -/
def healthHandler (s : ServerState) (now : String) (reqTime : Nat) : Response :=
  { status := 200
    body := .obj [
      ("status", .str "healthy"),
      ("timestamp", .str now),
      ("environment", .str s.nodeEnv),
      ("version", .str s.version),
      ("uptime", .num (processUptime s.startTime reqTime)),
      ("config", .obj [
        ("logLevel", .str s.logLevel),
        ("port", s.port)])] }

/-- GET /features (lines 48-54): 200 with the raw stored features map,
defaulted to the empty object by config.features || \x7b\x7d. -/
def featuresHandler (s : ServerState) : Response :=
  { status := 200
    body := .obj [
      ("environment", .str s.nodeEnv),
      ("features", jsOr (getField s.config "features") (.obj [])),
      ("message", .str "Feature flags configuration")] }

/-- The features object built by GET / (lines 63-67): each of the
three named flags read through config.features?.flag || false. -/
def rootFeatures (config : JsVal) : JsVal :=
  .obj [
    ("newUI", jsOr (getField (getField config "features") "newUI") (.bool false)),
    ("advancedAnalytics",
      jsOr (getField (getField config "features") "advancedAnalytics") (.bool false)),
    ("betaFeatures",
      jsOr (getField (getField config "features") "betaFeatures") (.bool false))]

/-- GET / (lines 57-71): 200 with the welcome message, environment,
timestamp, log level, and the three individually defaulted flags. -/
def rootHandler (s : ServerState) (now : String) : Response :=
  { status := 200
    body := .obj [
      ("message", .str "Welcome to Trunk-Based Development CI/CD Pipeline!"),
      ("environment", .str s.nodeEnv),
      ("timestamp", .str now),
      ("logLevel", .str s.logLevel),
      ("features", rootFeatures s.config)] }

/-- GET /api/status (lines 74-81): 200 with status operational and the
config field set to the app sub-record, defaulted to the empty object
by config.app || \x7b\x7d. -/
def apiStatusHandler (s : ServerState) (now : String) : Response :=
  { status := 200
    body := .obj [
      ("status", .str "operational"),
      ("environment", .str s.nodeEnv),
      ("config", jsOr (getField s.config "app") (.obj [])),
      ("timestamp", .str now)] }

/-- The central error-handling middleware (lines 84-90): 500 with the
underlying message exactly when NODE_ENV is development, otherwise the
generic message. -/
def errorMiddleware (nodeEnv errMessage : String) : Response :=
  { status := 500
    body := .obj [
      ("error", .str "Internal Server Error"),
      ("message",
        .str (if nodeEnv = "development" then errMessage else "Something went wrong"))] }

/-- The 404 catch-all (lines 93-99): 404 with the requested path
echoed inside the message. -/
def notFoundHandler (originalUrl now : String) : Response :=
  { status := 404
    body := .obj [
      ("error", .str "Not Found"),
      ("message", .str ("Route " ++ originalUrl ++ " not found")),
      ("timestamp", .str now)] }

/-- An incoming HTTP request: method and path. -/
structure Request : Type where
  method : String
  path : String

/-- ASCII lowercasing of one character, as the case-insensitive route
pattern treats letters. -/
def lowerChar (c : Char) : Char :=
  if 'A' ≤ c ∧ c ≤ 'Z' then Char.ofNat (c.toNat + 32) else c

/-- The request path as Express's default router compares it against
a registered route path: case-insensitively, and with one optional
trailing slash tolerated by non-strict matching (except on the bare
root path). Registered paths are already lowercase with no trailing
slash, so matching is equality after this normalization. -/
def normalizePath (p : String) : String :=
  let cs := p.data.map lowerChar
  String.mk (if cs ≠ ['/'] ∧ cs.getLast? = some '/' then cs.dropLast else cs)

/-- Express routing over the registered handlers, in registration
order (lines 33, 48, 57, 74, 93): the four GET routes match the
method and the path up to Express's default case-insensitive,
trailing-slash-tolerant comparison; everything else falls through to
the 404 catch-all, which echoes the raw requested path. -/
def route (s : ServerState) (req : Request) (now : String) (reqTime : Nat) : Response :=
  if req.method = "GET" ∧ normalizePath req.path = "/health" then healthHandler s now reqTime
  else if req.method = "GET" ∧ normalizePath req.path = "/features" then featuresHandler s
  else if req.method = "GET" ∧ normalizePath req.path = "/" then rootHandler s now
  else if req.method = "GET" ∧ normalizePath req.path = "/api/status" then apiStatusHandler s now
  else notFoundHandler req.path now

/-- The full middleware pipeline in registration order (lines 25-30,
then the routes, then the error middleware at 84-90 and the 404
catch-all at 93-99). The cors middleware (line 26) answers every
OPTIONS request itself with 204 and an empty body before routing;
when the body-parsing middleware (lines 29-30) rejects the request
body (bodyParseFails, e.g. malformed JSON with a JSON content type),
the raised error skips the routes and reaches the central error
middleware, which answers 500; otherwise the request is routed.
helmet (line 25) only adds headers and is not modelled. -/
def dispatch (s : ServerState) (req : Request) (bodyParseFails : Bool)
    (parseErrMessage : String) (now : String) (reqTime : Nat) : Response :=
  if req.method = "OPTIONS" then { status := 204, body := .null }
  else if bodyParseFails then errorMiddleware s.nodeEnv parseErrMessage
  else route s req now reqTime

/-- One request round-trip at the level of the process state: the
handlers only read the state, so it is returned unchanged. -/
def handleRequest (s : ServerState) (req : Request) (now : String)
    (reqTime : Nat) : ServerState × Response :=
  (s, route s req now reqTime)

/-- An error caught by the central middleware, at the level of the
process state: the middleware only reads NODE_ENV. -/
def handleError (s : ServerState) (errMessage : String) : ServerState × Response :=
  (s, errorMiddleware s.nodeEnv errMessage)

/-- One features map is a superset of another when every binding of
the second is also a binding of the first. -/
def featMapSuperset (big small : JsVal) : Prop :=
  ∀ k v, lookupField small k = some v → lookupField big k = some v

/-- Every value bound in a features map is strictly boolean. -/
def allFlagsBool (m : JsVal) : Prop :=
  ∀ k v, lookupField m k = some v → ∃ b, v = JsVal.bool b

/-- A process started with every environment variable unset and no
configuration file on disk: the loader falls back to the default. -/
def defaultState : ServerState :=
  startServer ⟨none, none, none, none⟩ (fun _ => none) 0

/-- C1: for every environment identifier whose configuration file is
missing or malformed, the loader warns (non-fatally) and the state
holds the complete built-in default record, with an empty features map
and logging level info; GET /health then returns 200 with body status
healthy. -/
theorem C1_missing_config_defaults_and_health (env : Env)
    (files : String → Option JsVal) (startTime reqTime : Nat) (now : String)
    (hmiss : files (envOr env.NODE_ENV "development") = none) :
    (loadConfig (envOr env.NODE_ENV "development") files (resolvePORT env.PORT)).warned
      = true ∧
    (startServer env files startTime).config = defaultConfig (resolvePORT env.PORT) ∧
    getField (startServer env files startTime).config "features" = .obj [] ∧
    getField (getField (startServer env files startTime).config "logging") "level"
      = .str "info" ∧
    (route (startServer env files startTime) ⟨"GET", "/health"⟩ now reqTime).status
      = 200 ∧
    getField (route (startServer env files startTime) ⟨"GET", "/health"⟩ now reqTime).body
      "status" = .str "healthy" := by
  refine ⟨?_, ?_, ?_, ?_, rfl, rfl⟩
  · simp [loadConfig, hmiss]
  · simp [startServer, loadConfig, hmiss]
  · simp [startServer, loadConfig, hmiss]; rfl
  · simp [startServer, loadConfig, hmiss]; rfl

/-- C1 witness: the unset-everything process with no files on disk. -/
theorem C1_missing_config_defaults_and_health_witness :
    (loadConfig (envOr (none : Option String) "development") (fun _ => none)
      (resolvePORT none)).warned = true ∧
    (startServer ⟨none, none, none, none⟩ (fun _ => none) 0).config
      = defaultConfig (resolvePORT none) ∧
    getField (startServer ⟨none, none, none, none⟩ (fun _ => none) 0).config "features"
      = .obj [] ∧
    getField (getField (startServer ⟨none, none, none, none⟩ (fun _ => none) 0).config
      "logging") "level" = .str "info" ∧
    (route (startServer ⟨none, none, none, none⟩ (fun _ => none) 0)
      ⟨"GET", "/health"⟩ "T" 5).status = 200 ∧
    getField (route (startServer ⟨none, none, none, none⟩ (fun _ => none) 0)
      ⟨"GET", "/health"⟩ "T" 5).body "status" = .str "healthy" :=
  C1_missing_config_defaults_and_health ⟨none, none, none, none⟩ (fun _ => none) 0 5 "T" rfl

/-- C2 counterexample: with identifier ghost and no configuration
record, GET /api/status does answer 200 and operational, but its
config field is the default app sub-record, not the empty object. -/
theorem C2_ghost_config_is_not_empty_object :
    (route (startServer ⟨none, some "ghost", none, none⟩ (fun _ => none) 0)
      ⟨"GET", "/api/status"⟩ "T" 0).status = 200 ∧
    getField (route (startServer ⟨none, some "ghost", none, none⟩ (fun _ => none) 0)
      ⟨"GET", "/api/status"⟩ "T" 0).body "status" = .str "operational" ∧
    getField (route (startServer ⟨none, some "ghost", none, none⟩ (fun _ => none) 0)
      ⟨"GET", "/api/status"⟩ "T" 0).body "config" ≠ .obj [] := by
  refine ⟨rfl, rfl, ?_⟩
  have hc : getField (route (startServer ⟨none, some "ghost", none, none⟩
      (fun _ => none) 0) ⟨"GET", "/api/status"⟩ "T" 0).body "config"
      = .obj [("name", .str "ci-test"), ("port", .num 3000)] := rfl
  rw [hc]
  simp

/-- C2 amended: with identifier ghost and no configuration record,
GET /api/status returns 200 with body status operational and body
config equal to the default app sub-record, the object with name
ci-test and port 3000 — not the empty object. -/
theorem C2_ghost_api_status_returns_default_app (files : String → Option JsVal)
    (startTime reqTime : Nat) (now : String) (hmiss : files "ghost" = none) :
    (route (startServer ⟨none, some "ghost", none, none⟩ files startTime)
      ⟨"GET", "/api/status"⟩ now reqTime).status = 200 ∧
    getField (route (startServer ⟨none, some "ghost", none, none⟩ files startTime)
      ⟨"GET", "/api/status"⟩ now reqTime).body "status" = .str "operational" ∧
    getField (route (startServer ⟨none, some "ghost", none, none⟩ files startTime)
      ⟨"GET", "/api/status"⟩ now reqTime).body "config"
      = .obj [("name", .str "ci-test"), ("port", .num 3000)] := by
  have hs : startServer ⟨none, some "ghost", none, none⟩ files startTime
      = { config := defaultConfig (.num 3000), nodeEnv := "ghost", logLevel := "info",
          port := .num 3000, version := "1.0.0", startTime := startTime } := by
    simp [startServer, loadConfig, resolvePORT, envOr] at hmiss ⊢
    simp [hmiss]
  rw [hs]
  exact ⟨rfl, rfl, rfl⟩

/-- C2 amended witness: no files on disk at all. -/
theorem C2_ghost_api_status_returns_default_app_witness :
    (route (startServer ⟨none, some "ghost", none, none⟩ (fun _ => none) 0)
      ⟨"GET", "/api/status"⟩ "T" 0).status = 200 ∧
    getField (route (startServer ⟨none, some "ghost", none, none⟩ (fun _ => none) 0)
      ⟨"GET", "/api/status"⟩ "T" 0).body "status" = .str "operational" ∧
    getField (route (startServer ⟨none, some "ghost", none, none⟩ (fun _ => none) 0)
      ⟨"GET", "/api/status"⟩ "T" 0).body "config"
      = .obj [("name", .str "ci-test"), ("port", .num 3000)] :=
  C2_ghost_api_status_returns_default_app (fun _ => none) 0 0 "T" rfl

/-- C4 counterexample: staging is a non-production identifier, yet the
error middleware hides the underlying message there and answers with
the generic one — the message is shown only under development. -/
theorem C4_staging_hides_error_message :
    "staging" ≠ "production" ∧
    (errorMiddleware "staging" "boom").status = 500 ∧
    getField (errorMiddleware "staging" "boom").body "message" ≠ .str "boom" ∧
    getField (errorMiddleware "staging" "boom").body "message"
      = .str "Something went wrong" := by
  refine ⟨by decide, rfl, ?_, rfl⟩
  have hm : getField (errorMiddleware "staging" "boom").body "message"
      = .str "Something went wrong" := rfl
  rw [hm]
  simp

/-- C4 amended: every caught exception yields a 500 whose body message
equals the underlying error message exactly when the environment
identifier is development, and the generic message for every other
identifier (production and any other non-development name alike). -/
theorem C4_error_message_development_only (nodeEnv errMessage : String) :
    (errorMiddleware nodeEnv errMessage).status = 500 ∧
    (nodeEnv = "development" →
      getField (errorMiddleware nodeEnv errMessage).body "message" = .str errMessage) ∧
    (nodeEnv ≠ "development" →
      getField (errorMiddleware nodeEnv errMessage).body "message"
        = .str "Something went wrong") := by
  refine ⟨rfl, ?_, ?_⟩ <;> intro h <;>
    simp [errorMiddleware, getField, List.lookup, h]

/-- C4 amended witness: development shows the message, staging hides it. -/
theorem C4_error_message_development_only_witness :
    getField (errorMiddleware "development" "boom").body "message" = .str "boom" ∧
    getField (errorMiddleware "staging" "boom").body "message"
      = .str "Something went wrong" :=
  ⟨(C4_error_message_development_only "development" "boom").2.1 rfl,
   (C4_error_message_development_only "staging" "boom").2.2 (by decide)⟩

/-- C5 counterexample: requests inside the original claim's scope
(path differing from the four literal route strings) that do not get
a 404: GET /HEALTH and GET /health/ are matched by Express's
case-insensitive, trailing-slash-tolerant router and return 200; the
cors middleware answers OPTIONS on an unknown path with 204; and a
rejected request body on an unknown path reaches the central error
middleware and returns 500 — contradicting both the 404 and the
never-500 parts. -/
theorem C5_express_dispatch_counterexample :
    ("/HEALTH" ≠ "/" ∧ "/HEALTH" ≠ "/health" ∧ "/HEALTH" ≠ "/features" ∧
      "/HEALTH" ≠ "/api/status") ∧
    (dispatch defaultState ⟨"GET", "/HEALTH"⟩ false "E" "T" 0).status = 200 ∧
    (dispatch defaultState ⟨"GET", "/health/"⟩ false "E" "T" 0).status = 200 ∧
    (dispatch defaultState ⟨"OPTIONS", "/nope"⟩ false "E" "T" 0).status = 204 ∧
    (dispatch defaultState ⟨"POST", "/nope"⟩ true "E" "T" 0).status = 500 :=
  ⟨by decide, rfl, rfl, rfl, rfl⟩

/-- C5 amended: every request whose normalized path (case-insensitive
comparison, one optional trailing slash — Express's default matching)
corresponds to none of the four defined routes, whose method is not
OPTIONS (answered 204 by the cors middleware), and whose body the
body-parsing middleware accepts, gets a 404 (not 500) with error Not
Found and a message containing the exact requested path. -/
theorem C5_unmatched_path_gets_404 (s : ServerState) (req : Request)
    (parseErrMessage now : String) (reqTime : Nat)
    (hm : req.method ≠ "OPTIONS")
    (h1 : normalizePath req.path ≠ "/")
    (h2 : normalizePath req.path ≠ "/health")
    (h3 : normalizePath req.path ≠ "/features")
    (h4 : normalizePath req.path ≠ "/api/status") :
    (dispatch s req false parseErrMessage now reqTime).status = 404 ∧
    (dispatch s req false parseErrMessage now reqTime).status ≠ 500 ∧
    getField (dispatch s req false parseErrMessage now reqTime).body "error"
      = .str "Not Found" ∧
    ∃ leftPart rightPart,
      getField (dispatch s req false parseErrMessage now reqTime).body "message"
        = .str (leftPart ++ req.path ++ rightPart) := by
  have hd : dispatch s req false parseErrMessage now reqTime
      = route s req now reqTime := by
    unfold dispatch
    rw [if_neg hm, if_neg (by simp)]
  have hr : route s req now reqTime = notFoundHandler req.path now := by
    unfold route
    rw [if_neg (fun hc => h2 hc.2), if_neg (fun hc => h3 hc.2),
        if_neg (fun hc => h1 hc.2), if_neg (fun hc => h4 hc.2)]
  rw [hd, hr]
  exact ⟨rfl, by simp [notFoundHandler], rfl, "Route ", " not found", rfl⟩

/-- C5 amended witness: a GET with a well-formed body for a path that
no normalization brings to one of the four routes. -/
theorem C5_unmatched_path_gets_404_witness :
    (dispatch defaultState ⟨"GET", "/nope"⟩ false "E" "T" 0).status = 404 ∧
    (dispatch defaultState ⟨"GET", "/nope"⟩ false "E" "T" 0).status ≠ 500 ∧
    getField (dispatch defaultState ⟨"GET", "/nope"⟩ false "E" "T" 0).body "error"
      = .str "Not Found" ∧
    ∃ leftPart rightPart,
      getField (dispatch defaultState ⟨"GET", "/nope"⟩ false "E" "T" 0).body "message"
        = .str (leftPart ++ "/nope" ++ rightPart) :=
  C5_unmatched_path_gets_404 defaultState ⟨"GET", "/nope"⟩ "E" "T" 0
    (by decide) (by decide) (by decide) (by decide) (by decide)

/-- C6: after loading, the configuration record in use is exactly one
of two whole values — the parsed record of the named environment when
it exists, or the complete built-in default — never a merge. -/
theorem C6_config_whole_file_or_whole_default (nodeEnv : String)
    (files : String → Option JsVal) (port : JsVal) :
    (∃ c, files nodeEnv = some c ∧ (loadConfig nodeEnv files port).config = c) ∨
    (files nodeEnv = none ∧
      (loadConfig nodeEnv files port).config = defaultConfig port) := by
  cases hf : files nodeEnv with
  | some c => exact Or.inl ⟨c, rfl, by simp [loadConfig, hf]⟩
  | none => exact Or.inr ⟨rfl, by simp [loadConfig, hf]⟩

/-- The flag-reading idiom applied to a boolean: stored true survives
the or, stored false falls to the false default, so the stored boolean
comes back either way. -/
theorem jsOr_bool_false (b : Bool) : jsOr (.bool b) (.bool false) = .bool b := by
  cases b <;> rfl

/-- C3 counterexample: with the built-in default record (empty
features map), the /features map binds none of the three flag names
while the GET / map binds all of them to false, so the /features map
is not a superset of the GET / flags. -/
theorem C3_empty_features_not_superset :
    ¬ featMapSuperset (getField (featuresHandler defaultState).body "features")
        (getField (rootHandler defaultState "T").body "features") := by
  intro h
  have h1 : lookupField (getField (rootHandler defaultState "T").body "features")
      "newUI" = some (.bool false) := rfl
  have h2 := h "newUI" (.bool false) h1
  have h3 : lookupField (getField (featuresHandler defaultState).body "features")
      "newUI" = (none : Option JsVal) := rfl
  rw [h3] at h2
  exact Option.noConfusion h2

/-- C3 amended: when the stored features map binds every flag to a
strictly boolean value and in particular binds all of newUI,
advancedAnalytics and betaFeatures, the /features map is a superset of
the three flags surfaced at GET /, and every flag value in both
responses is strictly boolean. Without those bindings the inclusion
fails (see the counterexample on the default record). -/
theorem C3_superset_when_three_flags_bound_boolean (s : ServerState) (now : String)
    (hall : allFlagsBool (getField s.config "features"))
    (hn : ∃ b, lookupField (getField s.config "features") "newUI" = some (.bool b))
    (ha : ∃ b, lookupField (getField s.config "features") "advancedAnalytics"
      = some (.bool b))
    (hb : ∃ b, lookupField (getField s.config "features") "betaFeatures"
      = some (.bool b)) :
    featMapSuperset (getField (featuresHandler s).body "features")
      (getField (rootHandler s now).body "features") ∧
    allFlagsBool (getField (featuresHandler s).body "features") ∧
    allFlagsBool (getField (rootHandler s now).body "features") := by
  obtain ⟨b1, h1⟩ := hn
  obtain ⟨b2, h2⟩ := ha
  obtain ⟨b3, h3⟩ := hb
  obtain ⟨l, hl⟩ : ∃ l, getField s.config "features" = .obj l := by
    cases hf : getField s.config "features"
    case obj l => exact ⟨l, rfl⟩
    all_goals rw [hf] at h1
    all_goals simp [lookupField] at h1
  rw [hl] at h1 h2 h3 hall
  have hfeat : getField (featuresHandler s).body "features"
      = jsOr (getField s.config "features") (.obj []) := rfl
  rw [hl] at hfeat
  have hfeat2 : getField (featuresHandler s).body "features" = .obj l := by
    rw [hfeat]; rfl
  have h1' : l.lookup "newUI" = some (.bool b1) := h1
  have h2' : l.lookup "advancedAnalytics" = some (.bool b2) := h2
  have h3' : l.lookup "betaFeatures" = some (.bool b3) := h3
  have g1 : getField (JsVal.obj l) "newUI" = .bool b1 := by simp [getField, h1']
  have g2 : getField (JsVal.obj l) "advancedAnalytics" = .bool b2 := by
    simp [getField, h2']
  have g3 : getField (JsVal.obj l) "betaFeatures" = .bool b3 := by
    simp [getField, h3']
  have hrootmap : getField (rootHandler s now).body "features"
      = JsVal.obj [("newUI", .bool b1), ("advancedAnalytics", .bool b2),
          ("betaFeatures", .bool b3)] := by
    have hr : getField (rootHandler s now).body "features" = rootFeatures s.config := rfl
    rw [hr]
    simp only [rootFeatures, hl, g1, g2, g3, jsOr_bool_false]
  refine ⟨?_, ?_, ?_⟩
  · rw [hfeat2, hrootmap]
    intro k v hkv
    by_cases e1 : k = "newUI"
    · subst e1
      have hv : some (JsVal.bool b1) = some v := hkv
      injection hv with hv
      rw [← hv]
      exact h1
    · by_cases e2 : k = "advancedAnalytics"
      · subst e2
        have hv : some (JsVal.bool b2) = some v := hkv
        injection hv with hv
        rw [← hv]
        exact h2
      · by_cases e3 : k = "betaFeatures"
        · subst e3
          have hv : some (JsVal.bool b3) = some v := hkv
          injection hv with hv
          rw [← hv]
          exact h3
        · exfalso
          simp [lookupField, List.lookup, beq_false_of_ne e1,
            beq_false_of_ne e2, beq_false_of_ne e3] at hkv
  · rw [hfeat2]
    exact hall
  · rw [hrootmap]
    intro k v hkv
    by_cases e1 : k = "newUI"
    · subst e1
      have hv : some (JsVal.bool b1) = some v := hkv
      injection hv with hv
      exact ⟨b1, hv.symm⟩
    · by_cases e2 : k = "advancedAnalytics"
      · subst e2
        have hv : some (JsVal.bool b2) = some v := hkv
        injection hv with hv
        exact ⟨b2, hv.symm⟩
      · by_cases e3 : k = "betaFeatures"
        · subst e3
          have hv : some (JsVal.bool b3) = some v := hkv
          injection hv with hv
          exact ⟨b3, hv.symm⟩
        · exfalso
          simp [lookupField, List.lookup, beq_false_of_ne e1,
            beq_false_of_ne e2, beq_false_of_ne e3] at hkv

/-- A state whose stored features map binds the three flags to
booleans (and nothing else), for the C3 witness. -/
def threeFlagState : ServerState :=
  { config := .obj [("features", .obj [("newUI", .bool true),
      ("advancedAnalytics", .bool false), ("betaFeatures", .bool true)])]
    nodeEnv := "development", logLevel := "info", port := .num 3000
    version := "1.0.0", startTime := 0 }

/-- C3 amended witness: a record binding exactly the three flags to
booleans. -/
theorem C3_superset_when_three_flags_bound_boolean_witness :
    featMapSuperset (getField (featuresHandler threeFlagState).body "features")
      (getField (rootHandler threeFlagState "T").body "features") ∧
    allFlagsBool (getField (featuresHandler threeFlagState).body "features") ∧
    allFlagsBool (getField (rootHandler threeFlagState "T").body "features") :=
  C3_superset_when_three_flags_bound_boolean threeFlagState "T"
    (by
      intro k v hkv
      by_cases e1 : k = "newUI"
      · subst e1; exact ⟨true, by
          have hv : some (JsVal.bool true) = some v := hkv
          injection hv with hv; exact hv.symm⟩
      · by_cases e2 : k = "advancedAnalytics"
        · subst e2; exact ⟨false, by
            have hv : some (JsVal.bool false) = some v := hkv
            injection hv with hv; exact hv.symm⟩
        · by_cases e3 : k = "betaFeatures"
          · subst e3; exact ⟨true, by
              have hv : some (JsVal.bool true) = some v := hkv
              injection hv with hv; exact hv.symm⟩
          · exact absurd hkv (by
              simp [threeFlagState, getField, lookupField, List.lookup,
                beq_false_of_ne e1, beq_false_of_ne e2, beq_false_of_ne e3]))
    ⟨true, rfl⟩ ⟨false, rfl⟩ ⟨true, rfl⟩

/-- C7: the /health uptime field is the process uptime at the request
clock reading; it is never negative, and it is monotonically
non-decreasing across calls whose clock readings do not decrease. -/
theorem C7_uptime_nonneg_monotone (s : ServerState) (now1 : String)
    (t1 t2 : Nat) (h12 : t1 ≤ t2) :
    getField (healthHandler s now1 t1).body "uptime"
      = .num (processUptime s.startTime t1) ∧
    (0 : Int) ≤ (processUptime s.startTime t1 : Int) ∧
    processUptime s.startTime t1 ≤ processUptime s.startTime t2 :=
  ⟨rfl, Int.natCast_nonneg _, Nat.sub_le_sub_right h12 _⟩

/-- C7 witness: two successive clock readings of the default process. -/
theorem C7_uptime_nonneg_monotone_witness :
    getField (healthHandler defaultState "T" 1).body "uptime"
      = .num (processUptime defaultState.startTime 1) ∧
    (0 : Int) ≤ (processUptime defaultState.startTime 1 : Int) ∧
    processUptime defaultState.startTime 1 ≤ processUptime defaultState.startTime 2 :=
  C7_uptime_nonneg_monotone defaultState "T" 1 2 (by decide)

/-- C8: with every environment variable unset, the resolved port is
3000, the environment name is development and the log level is info;
the /health config sub-object reports exactly the resolved log level
and port. -/
theorem C8_env_var_defaults (files : String → Option JsVal)
    (startTime reqTime : Nat) (now : String) :
    (startServer ⟨none, none, none, none⟩ files startTime).port = .num 3000 ∧
    (startServer ⟨none, none, none, none⟩ files startTime).nodeEnv = "development" ∧
    (startServer ⟨none, none, none, none⟩ files startTime).logLevel = "info" ∧
    getField (getField (healthHandler (startServer ⟨none, none, none, none⟩ files
      startTime) now reqTime).body "config") "logLevel" = .str "info" ∧
    getField (getField (healthHandler (startServer ⟨none, none, none, none⟩ files
      startTime) now reqTime).body "config") "port" = .num 3000 :=
  ⟨rfl, rfl, rfl, rfl, rfl⟩

/-- C9: the configuration record is built once at startup, and every
request handler — the four routes, the 404 catch-all reached through
routing, and the error middleware — returns the process state
unchanged: config, environment name and log level included. -/
theorem C9_handlers_leave_state_unchanged (s : ServerState) (req : Request)
    (now : String) (reqTime : Nat) (errMessage : String) :
    (handleRequest s req now reqTime).1 = s ∧
    (handleRequest s req now reqTime).1.config = s.config ∧
    (handleRequest s req now reqTime).1.nodeEnv = s.nodeEnv ∧
    (handleRequest s req now reqTime).1.logLevel = s.logLevel ∧
    (handleError s errMessage).1 = s :=
  ⟨rfl, rfl, rfl, rfl, rfl⟩

/-- C10: each of the three flags reported at GET / equals the stored
value when that value is truthy (a truthy non-boolean passes through
verbatim), and equals the boolean false when the stored value is falsy
— which covers stored false, 0, null, the empty string, and an absent
flag alike, since all of those are falsy. -/
theorem C10_root_flags_truthy_passthrough (s : ServerState) (now : String)
    (k : String)
    (hk : k = "newUI" ∨ k = "advancedAnalytics" ∨ k = "betaFeatures") :
    (truthy (getField (getField s.config "features") k) = true →
      lookupField (getField (rootHandler s now).body "features") k
        = some (getField (getField s.config "features") k)) ∧
    (truthy (getField (getField s.config "features") k) = false →
      lookupField (getField (rootHandler s now).body "features") k
        = some (.bool false)) := by
  rcases hk with hk | hk | hk <;> subst hk
  · have hlk : lookupField (getField (rootHandler s now).body "features") "newUI"
        = some (jsOr (getField (getField s.config "features") "newUI")
            (.bool false)) := rfl
    rw [hlk]
    constructor <;> intro ht <;> simp [jsOr, ht]
  · have hlk : lookupField (getField (rootHandler s now).body "features")
        "advancedAnalytics"
        = some (jsOr (getField (getField s.config "features") "advancedAnalytics")
            (.bool false)) := rfl
    rw [hlk]
    constructor <;> intro ht <;> simp [jsOr, ht]
  · have hlk : lookupField (getField (rootHandler s now).body "features")
        "betaFeatures"
        = some (jsOr (getField (getField s.config "features") "betaFeatures")
            (.bool false)) := rfl
    rw [hlk]
    constructor <;> intro ht <;> simp [jsOr, ht]

/-- A state whose stored newUI flag is a truthy non-boolean string,
for the C10 witness. -/
def truthyStringFlagState : ServerState :=
  { config := .obj [("features", .obj [("newUI", .str "yes")])]
    nodeEnv := "development", logLevel := "info", port := .num 3000
    version := "1.0.0", startTime := 0 }

/-- C10 witness: a truthy non-boolean stored flag passes through
verbatim, while an absent flag is reported as false. -/
theorem C10_root_flags_truthy_passthrough_witness :
    lookupField (getField (rootHandler truthyStringFlagState "T").body "features")
      "newUI" = some (.str "yes") ∧
    lookupField (getField (rootHandler defaultState "T").body "features")
      "newUI" = some (.bool false) :=
  ⟨(C10_root_flags_truthy_passthrough truthyStringFlagState "T" "newUI"
      (Or.inl rfl)).1 rfl,
   (C10_root_flags_truthy_passthrough defaultState "T" "newUI"
      (Or.inl rfl)).2 rfl⟩

end CiTest
